import Mathlib

/-!
Verification of the tax-split calculator (`src/app.py`).

The Python code works over IEEE floats; we embed its arithmetic over `ℚ`,
with `round2` modelling Python's `round(x, 2)` (round to the nearest
multiple of 1/100).  All monetary values in the claims are exact multiples
of a cent, so the tie-breaking convention is immaterial here.
-/

namespace TaxPlan

/-- `round2 x` models Python's `round(x, 2)`: round to 2 decimal places. -/
def round2 (x : ℚ) : ℚ := (round (x * 100) : ℤ) / 100

/-- The fixed 2025-26 bracket table from `individual_tax_2025_26`:
`(lower, upper, rate)` with `upper = none` standing for `float('inf')`. -/
def brackets : List (ℚ × Option ℚ × ℚ) :=
  [(0,      some 18200,  0),
   (18201,  some 45000,  16/100),
   (45001,  some 135000, 30/100),
   (135001, some 190000, 37/100),
   (190001, none,        45/100)]

/-- `min income upper`, where `upper = none` is `float('inf')`. -/
def capAt (income : ℚ) : Option ℚ → ℚ
  | some u => min income u
  | none => income

/-- The bracket loop of `individual_tax_2025_26` (src/app.py lines 14-23):
`prev` starts at `0`, each iteration first checks `income <= prev` (breaking
out of the loop), then adds `taxable * rate` when
`taxable = min(income, upper) - max(prev, lower - 1 if lower > 0 else 0)`
is positive, and sets `prev = upper`.  `prev = none` is `float('inf')`
(any income breaks the loop there). -/
def bracketLoop (income : ℚ) : List (ℚ × Option ℚ × ℚ) → Option ℚ → ℚ → ℚ
  | [], _, tax => tax
  | (lower, upper, rate) :: rest, prev, tax =>
    match prev with
    | none => tax
    | some p =>
      if income ≤ p then tax
      else
        bracketLoop income rest upper
          (if 0 < capAt income upper - max p (if 0 < lower then lower - 1 else 0)
           then tax + (capAt income upper - max p (if 0 < lower then lower - 1 else 0)) * rate
           else tax)

/-- `individual_tax_2025_26` (src/app.py lines 1-28): progressive bracket tax
plus a flat 2% Medicare levy on the raw income, rounded to 2 decimals;
non-positive income short-circuits to `0.0`. -/
def individual_tax_2025_26 (income : ℚ) : ℚ :=
  if income ≤ 0 then 0
  else round2 (bracketLoop income brackets (some 0) 0 + income * (2/100))

/-- `company_tax_2025_26` (src/app.py lines 31-33). -/
def company_tax_2025_26 (income : ℚ) (rate : ℚ := 25/100) : ℚ :=
  round2 (income * rate)

/-- `smsf_tax_accumulation_2025_26` (src/app.py lines 36-38). -/
def smsf_tax_accumulation_2025_26 (income : ℚ) (rate : ℚ := 15/100) : ℚ :=
  round2 (income * rate)

/-- The data carried by the `ValueError` raised on allocation mismatch
(src/app.py line 53): the allocated sum and the requested total. -/
structure AllocationError where
  allocated : ℚ
  total_income : ℚ
  deriving Repr, DecidableEq

/-- The result dict of `tax_split_scenario` (src/app.py lines 61-72).
The field `company_tax_25pct` embeds the dict key `'company_tax_25%'` and
`smsf_tax_15pct` the key `'smsf_tax_15%'`. -/
structure ScenarioResult where
  total_income : ℚ
  individual_income : ℚ
  individual_tax_incl_medicare : ℚ
  company_income : ℚ
  company_tax_25pct : ℚ
  smsf_income_earnings : ℚ
  smsf_tax_15pct : ℚ
  total_tax_paid : ℚ
  effective_overall_rate : ℚ
  tax_savings_vs_all_individual : ℚ
  deriving Repr, DecidableEq

/-- `tax_split_scenario` (src/app.py lines 41-72).  The Python `ValueError`
is embedded as `Except.error`; the local names `allocated`, `ind_tax`,
`co_tax`, `smsf_tax`, `total_tax` of the source are inlined. -/
def tax_split_scenario (total_income individual_amount company_amount smsf_amount : ℚ)
    (company_rate : ℚ := 25/100) : Except AllocationError ScenarioResult :=
  if 1 < |individual_amount + company_amount + smsf_amount - total_income| then
    Except.error ⟨individual_amount + company_amount + smsf_amount, total_income⟩
  else
    Except.ok
      { total_income := round2 total_income
        individual_income := round2 individual_amount
        individual_tax_incl_medicare := individual_tax_2025_26 individual_amount
        company_income := round2 company_amount
        company_tax_25pct := company_tax_2025_26 company_amount company_rate
        smsf_income_earnings := round2 smsf_amount
        smsf_tax_15pct := smsf_tax_accumulation_2025_26 smsf_amount
        total_tax_paid := round2 (individual_tax_2025_26 individual_amount
          + company_tax_2025_26 company_amount company_rate
          + smsf_tax_accumulation_2025_26 smsf_amount)
        effective_overall_rate :=
          if 0 < total_income then
            round2 ((individual_tax_2025_26 individual_amount
              + company_tax_2025_26 company_amount company_rate
              + smsf_tax_accumulation_2025_26 smsf_amount) / total_income * 100)
          else 0
        tax_savings_vs_all_individual :=
          round2 (individual_tax_2025_26 total_income
            - (individual_tax_2025_26 individual_amount
              + company_tax_2025_26 company_amount company_rate
              + smsf_tax_accumulation_2025_26 smsf_amount)) }

/-- Closed form of the bracket loop on the concrete 2025-26 table, used to
reason about monotonicity and boundary values. -/
def btClosed (x : ℚ) : ℚ :=
  16/100 * max 0 (min x 45000 - 18200) + 30/100 * max 0 (min x 135000 - 45000)
    + 37/100 * max 0 (min x 190000 - 135000) + 45/100 * max 0 (x - 190000)

lemma loop_r1 (x : ℚ) (hx : 0 < x) (h1 : x ≤ 18200) :
    bracketLoop x brackets (some 0) 0 = 0 := by
  simp only [brackets, bracketLoop, capAt]
  norm_num [not_le.mpr hx, h1]

lemma loop_r2 (x : ℚ) (hx : 18200 < x) (h1 : x ≤ 45000) :
    bracketLoop x brackets (some 0) 0 = (x - 18200) * (16/100) := by
  simp only [brackets, bracketLoop, capAt]
  norm_num [not_le.mpr hx, h1, not_le.mpr (show (0:ℚ) < x by linarith),
    min_eq_left h1, min_eq_left (show x ≤ (45000:ℚ) by linarith)]

lemma loop_r3 (x : ℚ) (hx : 45000 < x) (h1 : x ≤ 135000) :
    bracketLoop x brackets (some 0) 0
      = (45000 - 18200) * (16/100) + (x - 45000) * (30/100) := by
  simp only [brackets, bracketLoop, capAt]
  norm_num [not_le.mpr hx, h1, not_le.mpr (show (0:ℚ) < x by linarith),
    not_le.mpr (show (18200:ℚ) < x by linarith),
    min_eq_left h1, min_eq_left (show x ≤ (135000:ℚ) by linarith),
    min_eq_right (show (45000:ℚ) ≤ x by linarith),
    min_eq_right (show (18200:ℚ) ≤ x by linarith)]

lemma loop_r4 (x : ℚ) (hx : 135000 < x) (h1 : x ≤ 190000) :
    bracketLoop x brackets (some 0) 0
      = (45000 - 18200) * (16/100) + (135000 - 45000) * (30/100)
        + (x - 135000) * (37/100) := by
  simp only [brackets, bracketLoop, capAt]
  norm_num [not_le.mpr hx, h1, not_le.mpr (show (0:ℚ) < x by linarith),
    not_le.mpr (show (18200:ℚ) < x by linarith),
    not_le.mpr (show (45000:ℚ) < x by linarith),
    min_eq_left h1, min_eq_left (show x ≤ (190000:ℚ) by linarith),
    min_eq_right (show (135000:ℚ) ≤ x by linarith),
    min_eq_right (show (45000:ℚ) ≤ x by linarith),
    min_eq_right (show (18200:ℚ) ≤ x by linarith)]

lemma loop_r5 (x : ℚ) (hx : 190000 < x) :
    bracketLoop x brackets (some 0) 0
      = (45000 - 18200) * (16/100) + (135000 - 45000) * (30/100)
        + (190000 - 135000) * (37/100) + (x - 190000) * (45/100) := by
  simp only [brackets, bracketLoop, capAt]
  norm_num [not_le.mpr hx, not_le.mpr (show (0:ℚ) < x by linarith),
    not_le.mpr (show (18200:ℚ) < x by linarith),
    not_le.mpr (show (45000:ℚ) < x by linarith),
    not_le.mpr (show (135000:ℚ) < x by linarith),
    min_eq_right (show (190000:ℚ) ≤ x by linarith),
    min_eq_right (show (135000:ℚ) ≤ x by linarith),
    min_eq_right (show (45000:ℚ) ≤ x by linarith),
    min_eq_right (show (18200:ℚ) ≤ x by linarith)]

lemma loop_eq_closed (x : ℚ) (hx : 0 < x) :
    bracketLoop x brackets (some 0) 0 = btClosed x := by
  rcases le_or_lt x 18200 with h1 | h1
  · rw [loop_r1 x hx h1]
    simp only [btClosed]
    rw [min_eq_left (show x ≤ (45000:ℚ) by linarith),
      min_eq_left (show x ≤ (135000:ℚ) by linarith),
      min_eq_left (show x ≤ (190000:ℚ) by linarith),
      max_eq_left (show x - 18200 ≤ (0:ℚ) by linarith),
      max_eq_left (show x - 45000 ≤ (0:ℚ) by linarith),
      max_eq_left (show x - 135000 ≤ (0:ℚ) by linarith),
      max_eq_left (show x - 190000 ≤ (0:ℚ) by linarith)]
    norm_num
  · rcases le_or_lt x 45000 with h2 | h2
    · rw [loop_r2 x h1 h2]
      simp only [btClosed]
      rw [min_eq_left h2,
        min_eq_left (show x ≤ (135000:ℚ) by linarith),
        min_eq_left (show x ≤ (190000:ℚ) by linarith),
        max_eq_right (show (0:ℚ) ≤ x - 18200 by linarith),
        max_eq_left (show x - 45000 ≤ (0:ℚ) by linarith),
        max_eq_left (show x - 135000 ≤ (0:ℚ) by linarith),
        max_eq_left (show x - 190000 ≤ (0:ℚ) by linarith)]
      ring
    · rcases le_or_lt x 135000 with h3 | h3
      · rw [loop_r3 x h2 h3]
        simp only [btClosed]
        rw [min_eq_right (show (45000:ℚ) ≤ x by linarith),
          min_eq_left h3,
          min_eq_left (show x ≤ (190000:ℚ) by linarith),
          max_eq_right (show (0:ℚ) ≤ (45000:ℚ) - 18200 by norm_num),
          max_eq_right (show (0:ℚ) ≤ x - 45000 by linarith),
          max_eq_left (show x - 135000 ≤ (0:ℚ) by linarith),
          max_eq_left (show x - 190000 ≤ (0:ℚ) by linarith)]
        ring
      · rcases le_or_lt x 190000 with h4 | h4
        · rw [loop_r4 x h3 h4]
          simp only [btClosed]
          rw [min_eq_right (show (45000:ℚ) ≤ x by linarith),
            min_eq_right (show (135000:ℚ) ≤ x by linarith),
            min_eq_left h4,
            max_eq_right (show (0:ℚ) ≤ (45000:ℚ) - 18200 by norm_num),
            max_eq_right (show (0:ℚ) ≤ (135000:ℚ) - 45000 by norm_num),
            max_eq_right (show (0:ℚ) ≤ x - 135000 by linarith),
            max_eq_left (show x - 190000 ≤ (0:ℚ) by linarith)]
          ring
        · rw [loop_r5 x h4]
          simp only [btClosed]
          rw [min_eq_right (show (45000:ℚ) ≤ x by linarith),
            min_eq_right (show (135000:ℚ) ≤ x by linarith),
            min_eq_right (show (190000:ℚ) ≤ x by linarith),
            max_eq_right (show (0:ℚ) ≤ (45000:ℚ) - 18200 by norm_num),
            max_eq_right (show (0:ℚ) ≤ (135000:ℚ) - 45000 by norm_num),
            max_eq_right (show (0:ℚ) ≤ (190000:ℚ) - 135000 by norm_num),
            max_eq_right (show (0:ℚ) ≤ x - 190000 by linarith)]
          ring

/-- The bracket tax exactly as the spec words it: for each bracket
`(lower, upper, rate)` in ascending order, add
`rate * max(0, min(income, upper) - max(previous_upper, lower - 1 if lower > 0 else 0))`,
with `previous_upper` starting at `0`.  `upper = none` is `float('inf')`
(so `min(income, inf) = income`); the table ends at its infinite bracket, so
the `previous_upper` passed after it is never consulted. -/
def specBracketSum (income : ℚ) : List (ℚ × Option ℚ × ℚ) → ℚ → ℚ
  | [], _ => 0
  | (lower, upper, rate) :: rest, prevUpper =>
    rate * max 0 (capAt income upper - max prevUpper (if 0 < lower then lower - 1 else 0))
      + specBracketSum income rest (match upper with | some u => u | none => income)

lemma specSum_eq_closed (x : ℚ) : specBracketSum x brackets 0 = btClosed x := by
  simp only [brackets, specBracketSum, capAt, btClosed]
  norm_num
  ring

lemma round2_mono {x y : ℚ} (h : x ≤ y) : round2 x ≤ round2 y := by
  unfold round2
  have hr : round (x * 100) ≤ round (y * 100) := by
    rw [round_eq, round_eq]
    exact Int.floor_mono (by linarith)
  have hc : ((round (x * 100) : ℤ) : ℚ) ≤ ((round (y * 100) : ℤ) : ℚ) :=
    Int.cast_le.mpr hr
  linarith

lemma round2_nonneg {x : ℚ} (h : 0 ≤ x) : 0 ≤ round2 x := by
  have h0 : round2 0 ≤ round2 x := round2_mono h
  simpa [round2] using h0

lemma btClosed_mono {x y : ℚ} (h : x ≤ y) : btClosed x ≤ btClosed y := by
  have m1 : max 0 (min x 45000 - 18200) ≤ max 0 (min y 45000 - 18200) :=
    max_le_max le_rfl (by have := min_le_min h (le_refl (45000:ℚ)); linarith)
  have m2 : max 0 (min x 135000 - 45000) ≤ max 0 (min y 135000 - 45000) :=
    max_le_max le_rfl (by have := min_le_min h (le_refl (135000:ℚ)); linarith)
  have m3 : max 0 (min x 190000 - 135000) ≤ max 0 (min y 190000 - 135000) :=
    max_le_max le_rfl (by have := min_le_min h (le_refl (190000:ℚ)); linarith)
  have m4 : max 0 (x - 190000) ≤ max 0 (y - 190000) :=
    max_le_max le_rfl (by linarith)
  simp only [btClosed]
  linarith

lemma btClosed_nonneg (x : ℚ) : 0 ≤ btClosed x := by
  have h1 : (0:ℚ) ≤ max 0 (min x 45000 - 18200) := le_max_left _ _
  have h2 : (0:ℚ) ≤ max 0 (min x 135000 - 45000) := le_max_left _ _
  have h3 : (0:ℚ) ≤ max 0 (min x 190000 - 135000) := le_max_left _ _
  have h4 : (0:ℚ) ≤ max 0 (x - 190000) := le_max_left _ _
  simp only [btClosed]
  linarith

/-- C1: for every total_income and sub-amounts (individual, company, fund)
whose sum differs from total_income by at most 1, `tax_split_scenario`
succeeds and its `total_tax_paid` equals the rounded sum of the three
independently computed entity taxes. -/
theorem C1_total_tax_paid (total i c f rate : ℚ) (h : |i + c + f - total| ≤ 1) :
    ∃ r, tax_split_scenario total i c f rate = Except.ok r ∧
      r.total_tax_paid = round2 (individual_tax_2025_26 i
        + company_tax_2025_26 c rate + smsf_tax_accumulation_2025_26 f) := by
  unfold tax_split_scenario
  rw [if_neg (not_lt.mpr h)]
  exact ⟨_, rfl, rfl⟩

theorem C1_witness :
    ∃ r, tax_split_scenario 200000 60000 110000 30000 (25/100) = Except.ok r ∧
      r.total_tax_paid = round2 (individual_tax_2025_26 60000
        + company_tax_2025_26 110000 (25/100) + smsf_tax_accumulation_2025_26 30000) :=
  C1_total_tax_paid 200000 60000 110000 30000 (25/100) (by norm_num)

/-- C2: `tax_split_scenario` raises the allocation-mismatch error iff
`|(individual + company + fund) - total_income| > 1`; the error carries the
allocated sum and the requested total, and this is the only failure
condition. -/
theorem C2_mismatch_iff (total i c f rate : ℚ) :
    ((∃ e, tax_split_scenario total i c f rate = Except.error e)
        ↔ 1 < |i + c + f - total|)
    ∧ ∀ e, tax_split_scenario total i c f rate = Except.error e →
        e.allocated = i + c + f ∧ e.total_income = total := by
  unfold tax_split_scenario
  by_cases h : 1 < |i + c + f - total|
  · rw [if_pos h]
    exact ⟨⟨fun _ => h, fun _ => ⟨_, rfl⟩⟩,
      fun e he => by cases he; exact ⟨rfl, rfl⟩⟩
  · rw [if_neg h]
    refine ⟨⟨?_, fun hh => absurd hh h⟩, ?_⟩
    · rintro ⟨e, he⟩
      simp at he
    · intro e he
      simp at he

theorem C2_witness :
    ∃ e, tax_split_scenario 200000 0 0 0 (25/100) = Except.error e :=
  (C2_mismatch_iff 200000 0 0 0 (25/100)).1.mpr (by norm_num)

/-- C3: for every income ≤ 0, `individual_tax_2025_26` returns exactly 0;
in particular no 2% levy is applied to non-positive income. -/
theorem C3_nonpos_zero (income : ℚ) (h : income ≤ 0) :
    individual_tax_2025_26 income = 0 := by
  rw [individual_tax_2025_26, if_pos h]

theorem C3_witness :
    (-5 : ℚ) ≤ 0 ∧ individual_tax_2025_26 (-5) = 0 :=
  ⟨by norm_num, C3_nonpos_zero (-5) (by norm_num)⟩

/-- C4: for every income > 0, `individual_tax_2025_26 income` equals
`round2 (bracket_tax + 2/100 * income)` where the 2% levy is on the raw
income and `bracket_tax` is the ascending-order bracket sum
`specBracketSum`, each bracket contributing
`rate * max 0 (min income upper - max previous_upper (lower - 1 if lower > 0 else 0))`. -/
theorem C4_bracket_sum (income : ℚ) (h : 0 < income) :
    individual_tax_2025_26 income
      = round2 (specBracketSum income brackets 0 + 2/100 * income) := by
  rw [individual_tax_2025_26, if_neg (not_le.mpr h), loop_eq_closed income h,
    specSum_eq_closed]
  congr 1
  ring

theorem C4_witness :
    (0 : ℚ) < 60000 ∧ individual_tax_2025_26 60000
      = round2 (specBracketSum 60000 brackets 0 + 2/100 * 60000) :=
  ⟨by norm_num, C4_bracket_sum 60000 (by norm_num)⟩

/-- C5: `individual_tax_2025_26` is monotonically non-decreasing on
incomes ≥ 0. -/
theorem C5_monotone (x y : ℚ) (_hx : 0 ≤ x) (hxy : x ≤ y) :
    individual_tax_2025_26 x ≤ individual_tax_2025_26 y := by
  rcases le_or_lt x 0 with h1 | h1
  · rw [individual_tax_2025_26, if_pos h1]
    rcases le_or_lt y 0 with h2 | h2
    · rw [individual_tax_2025_26, if_pos h2]
    · rw [individual_tax_2025_26, if_neg (not_le.mpr h2), loop_eq_closed y h2]
      exact round2_nonneg (by have := btClosed_nonneg y; linarith)
  · have h2 : 0 < y := lt_of_lt_of_le h1 hxy
    rw [individual_tax_2025_26, if_neg (not_le.mpr h1), loop_eq_closed x h1,
      individual_tax_2025_26, if_neg (not_le.mpr h2), loop_eq_closed y h2]
    exact round2_mono (by have := btClosed_mono hxy; linarith)

theorem C5_witness :
    (0 : ℚ) ≤ 20000 ∧ (20000 : ℚ) ≤ 50000
      ∧ individual_tax_2025_26 20000 ≤ individual_tax_2025_26 50000 :=
  ⟨by norm_num, by norm_num, C5_monotone 20000 50000 (by norm_num) (by norm_num)⟩

/-- C6: at each bracket upper boundary (18200, 45000, 135000, 190000) the
tax equals the sum of the fully-taxed lower brackets plus the 2% levy, with
zero contribution from the next bracket. -/
theorem C6_boundaries :
    individual_tax_2025_26 18200 = round2 ((0:ℚ) * (18200 - 0) + 2/100 * 18200)
    ∧ individual_tax_2025_26 45000
      = round2 ((0:ℚ) * (18200 - 0) + 16/100 * (45000 - 18200) + 2/100 * 45000)
    ∧ individual_tax_2025_26 135000
      = round2 ((0:ℚ) * (18200 - 0) + 16/100 * (45000 - 18200)
          + 30/100 * (135000 - 45000) + 2/100 * 135000)
    ∧ individual_tax_2025_26 190000
      = round2 ((0:ℚ) * (18200 - 0) + 16/100 * (45000 - 18200)
          + 30/100 * (135000 - 45000) + 37/100 * (190000 - 135000)
          + 2/100 * 190000) := by
  refine ⟨?_, ?_, ?_, ?_⟩ <;>
    norm_num [individual_tax_2025_26, bracketLoop, brackets, capAt, round2,
      round_eq, min_def, max_def]

/-- C7: both flat-rate calculators return exactly `round2 (x * r)` for every
income `x` and rate `r` (no bounds check on `r`); `company_tax_2025_26`
defaults to `r = 25/100` and `smsf_tax_accumulation_2025_26` to `r = 15/100`. -/
theorem C7_flat_rate (x r : ℚ) :
    company_tax_2025_26 x r = round2 (x * r)
    ∧ smsf_tax_accumulation_2025_26 x r = round2 (x * r)
    ∧ company_tax_2025_26 x = round2 (x * (25/100))
    ∧ smsf_tax_accumulation_2025_26 x = round2 (x * (15/100)) :=
  ⟨rfl, rfl, rfl, rfl⟩

/-- C8: for every scenario accepted by the composer, `effective_overall_rate`
is 0 when total_income ≤ 0 and otherwise `round2 (total_tax / total_income * 100)`
(the division branch is guarded by `0 < total_income`). -/
theorem C8_effective_rate (total i c f rate : ℚ) (h : |i + c + f - total| ≤ 1) :
    ∃ r, tax_split_scenario total i c f rate = Except.ok r ∧
      r.effective_overall_rate
        = if 0 < total then
            round2 ((individual_tax_2025_26 i + company_tax_2025_26 c rate
              + smsf_tax_accumulation_2025_26 f) / total * 100)
          else 0 := by
  unfold tax_split_scenario
  rw [if_neg (not_lt.mpr h)]
  exact ⟨_, rfl, rfl⟩

theorem C8_witness :
    ∃ r, tax_split_scenario 200000 60000 110000 30000 (25/100) = Except.ok r ∧
      r.effective_overall_rate
        = if (0:ℚ) < 200000 then
            round2 ((individual_tax_2025_26 60000 + company_tax_2025_26 110000 (25/100)
              + smsf_tax_accumulation_2025_26 30000) / 200000 * 100)
          else 0 :=
  C8_effective_rate 200000 60000 110000 30000 (25/100) (by norm_num)

/-- C9 counterexample: a split summing to 199500 against total_income 200000
is NOT accepted — it differs by 500, beyond the $1.00 tolerance, so the
composer raises the allocation-mismatch error. -/
theorem C9_counterexample :
    tax_split_scenario 200000 99500 50000 50000 (25/100)
      = Except.error ⟨199500, 200000⟩ := by
  unfold tax_split_scenario
  rw [if_pos (by norm_num)]
  norm_num

/-- C9 (amended): with total_income = 200000, every split summing to 199000
raises the allocation-mismatch error, and so does every split summing to
199500; a split is accepted exactly when it reconciles within $1.00, e.g.
every split summing to 199999.5 is accepted. -/
theorem C9_tolerance_examples (i c f rate : ℚ) :
    (i + c + f = 199000 →
      ∃ e, tax_split_scenario 200000 i c f rate = Except.error e)
    ∧ (i + c + f = 199500 →
      ∃ e, tax_split_scenario 200000 i c f rate = Except.error e)
    ∧ (i + c + f = 199999.5 →
      ∃ r, tax_split_scenario 200000 i c f rate = Except.ok r) := by
  refine ⟨?_, ?_, ?_⟩
  · intro h
    unfold tax_split_scenario
    rw [h, if_pos (by norm_num)]
    exact ⟨_, rfl⟩
  · intro h
    unfold tax_split_scenario
    rw [h, if_pos (by norm_num)]
    exact ⟨_, rfl⟩
  · intro h
    unfold tax_split_scenario
    rw [h, if_neg (by norm_num [abs_le])]
    exact ⟨_, rfl⟩

theorem C9_witness :
    (∃ e, tax_split_scenario 200000 99000 50000 50000 (25/100) = Except.error e)
    ∧ (∃ e, tax_split_scenario 200000 99500 50000 50000 (25/100) = Except.error e)
    ∧ (∃ r, tax_split_scenario 200000 99999.5 50000 50000 (25/100) = Except.ok r) :=
  ⟨(C9_tolerance_examples 99000 50000 50000 (25/100)).1 (by norm_num),
   (C9_tolerance_examples 99500 50000 50000 (25/100)).2.1 (by norm_num),
   (C9_tolerance_examples 99999.5 50000 50000 (25/100)).2.2 (by norm_num)⟩

/-- C10: there is a valid input (within the $1 tolerance) whose
`tax_savings_vs_all_individual` is strictly negative: splitting can cost more
tax than all-individual taxation (here a modest total allocated entirely to
the company at the default 25% rate). -/
theorem C10_negative_savings :
    ∃ (total i c f rate : ℚ),
      |i + c + f - total| ≤ 1
      ∧ ∃ r, tax_split_scenario total i c f rate = Except.ok r
          ∧ r.tax_savings_vs_all_individual < 0 := by
  refine ⟨1000, 0, 1000, 0, 25/100, by norm_num, ?_⟩
  unfold tax_split_scenario
  rw [if_neg (by norm_num)]
  refine ⟨_, rfl, ?_⟩
  norm_num [individual_tax_2025_26, bracketLoop, brackets, capAt,
    company_tax_2025_26, smsf_tax_accumulation_2025_26, round2, round_eq,
    min_def, max_def]

end TaxPlan
